import Mathlib

/-!
Verification development for the pcb-fault-guru front-end.

The repository is a TypeScript/React application.  The definitions below are a
shallow embedding of its core logic, translated from the source files:

* `services/geminiService.ts` — `analyzePcbImage`, `createChat`, `sendMessage`;
* the application root component (`App`) — `handleImageUpload`, `handleReset`,
  `downloadBOM`, `handleSendMessage`, the selection toggle;
* `components/ResultsPanel.tsx` / `components/AnalysisViewer.tsx` — the
  voltage-mismatch predicate and the issue/ok component filters;
* `services/pdfService.ts` — the component partition used by the PDF report.

Modelling conventions:

* JavaScript numbers are modelled as `ℚ` (the values exercised here are exact
  decimals, so no floating-point rounding is involved).
* `JSON.parse` is a host-platform primitive, not repository code; it is
  modelled as an oracle of type `String → Option JsonVal` (`none` = the parse
  throws).  Parsed JSON values are modelled by the inductive `JsonVal`.
* JavaScript truthiness is modelled explicitly (`jsTruthy`, `numTruthy`,
  `strTruthy`): `null`/`undefined`, `false`, `0`, and `""` are falsy.
* `null`/`undefined` fields are modelled with `Option`.
-/

/-- Model of a parsed JSON value (the result of a successful `JSON.parse`). -/
inductive JsonVal where
  | jnull : JsonVal
  | jbool (b : Bool) : JsonVal
  | jnum (q : ℚ) : JsonVal
  | jstr (s : String) : JsonVal
  | jarr (elems : List JsonVal) : JsonVal
  | jobj (fields : List (String × JsonVal)) : JsonVal

/-- JavaScript truthiness of a JSON value: `null`, `false`, `0` and `""` are
falsy; every array and object is truthy. -/
def jsTruthy : JsonVal → Bool
  | .jnull => false
  | .jbool b => b
  | .jnum q => decide (q ≠ 0)
  | .jstr s => decide (s ≠ "")
  | .jarr _ => true
  | .jobj _ => true

/-- JavaScript property access `v.k`: on an object, the value of the first
field named `k` (JS object keys are unique, the first match models lookup);
on every other value — and for a missing key — the result is `undefined`,
modelled as `none`. -/
def getKey (v : JsonVal) (k : String) : Option JsonVal :=
  match v with
  | .jobj fields => (fields.find? (fun f => f.1 = k)).map (fun f => f.2)
  | _ => none

/-- Truthiness of a possibly-`undefined` value (`undefined` is falsy). -/
def optTruthy (v : Option JsonVal) : Bool :=
  match v with
  | none => false
  | some w => jsTruthy w

/-- Truthiness of the `process.env.API_KEY` credential: absent or empty is
falsy. -/
def strTruthy (s : Option String) : Bool :=
  match s with
  | none => false
  | some t => decide (t ≠ "")

/-- The error taxonomy of the analysis client (spec §7). -/
inductive AnalyzeError where
  | configurationError : AnalyzeError
  | malformedResponse : AnalyzeError
  deriving DecidableEq

/-- Observable effects of `analyzePcbImage` that matter to the claims: whether
the outbound network request was issued. -/
inductive AnalyzeEffect where
  | networkCall : AnalyzeEffect
  deriving DecidableEq

/-- `geminiService.ts`, `analyzePcbImage`, reply handling (lines 160-173):

```js
const jsonText = response.text.trim();
try {
    const parsed = JSON.parse(jsonText);
    if (!parsed.components || !parsed.defects) {
         throw new Error("AI response is missing required fields.");
    }
    return parsed as PcbAnalysis;
} catch (e) {
    throw new Error("AI returned invalid data format. Please try again.");
}
```

`parsed` is the oracle result of `JSON.parse` on the reply text (`none` when
the parse throws).  Both a parse failure and the failed truthiness check on
`parsed.components` / `parsed.defects` land in the same `catch`, producing the
`MalformedResponse` error. -/
def analyzeReply (parsed : Option JsonVal) : Except AnalyzeError JsonVal :=
  match parsed with
  | none => .error .malformedResponse
  | some v =>
    if !optTruthy (getKey v "components") || !optTruthy (getKey v "defects") then
      .error .malformedResponse
    else
      .ok v

/-- `geminiService.ts`, `analyzePcbImage` (lines 142-173): the credential check
precedes the network call.

```js
if (!process.env.API_KEY) {
    throw new Error("API_KEY environment variable not set.");
}
const ai = new GoogleGenAI(\x7bapiKey: process.env.API_KEY\x7d);
...
const response = await ai.models.generateContent(\x7b...\x7d);
```

The result pairs the list of issued effects with the outcome; when the
credential is missing the effect list is empty (no request was constructed or
sent) and the outcome is `ConfigurationError`.  `replyParse` is the oracle
result of `JSON.parse` on the (eventual) reply text. -/
def analyzePcbImage (apiKey : Option String) (replyParse : Option JsonVal) :
    List AnalyzeEffect × Except AnalyzeError JsonVal :=
  if !strTruthy apiKey then
    ([], .error .configurationError)
  else
    ([.networkCall], analyzeReply replyParse)

/-- `types.ts`: `presence` ∈ {missing, ok}. -/
inductive Presence where
  | missing : Presence
  | ok : Presence
  deriving DecidableEq

/-- `types.ts`: `condition` ∈ {burnt, corroded, ok}. -/
inductive Condition where
  | burnt : Condition
  | corroded : Condition
  | ok : Condition
  deriving DecidableEq

/-- `types.ts`: normalized bounding box {x, y, w, h}. -/
structure BoundingBox where
  x : ℚ
  y : ℚ
  w : ℚ
  h : ℚ
  deriving DecidableEq

/-- `types.ts`: a detected component.  Optional fields are `Option`s. -/
structure Component where
  designator : String
  mpn : String
  bbox : BoundingBox
  presence : Presence
  condition : Condition
  confidence : ℚ
  temperature : Option ℚ
  maxVoltage : Option ℚ
  datasheetUrl : Option String
  deriving DecidableEq

/-- `types.ts`: a detected defect (its `type` is an open string label). -/
structure Defect where
  id : String
  type : String
  bbox : BoundingBox
  confidence : ℚ
  description : Option String
  deriving DecidableEq

/-- `types.ts`: one replacement suggestion. -/
structure Replacement where
  mpn : String
  reason : String
  deriving DecidableEq

/-- `types.ts`: replacement alternatives for one original part (source name
`Alternative`, renamed here because Lean already has a class of that name). -/
structure AlternativeEntry where
  original_mpn : String
  replacements : List Replacement
  deriving DecidableEq

/-- `types.ts`: the advice block of an analysis. -/
structure Advice where
  quick_actions : List String
  alternatives : List AlternativeEntry
  next_steps : List String
  repair_cost : Option ℚ
  deriving DecidableEq

/-- `types.ts`: the aggregate analysis result. -/
structure PcbAnalysis where
  components : List Component
  defects : List Defect
  summary : String
  advice : Advice
  deriving DecidableEq

/-- `types.ts`: chat roles. -/
inductive ChatRole where
  | user : ChatRole
  | model : ChatRole
  deriving DecidableEq

/-- `types.ts`: one transcript entry.  The extracted jumper suggestion is kept
as the parsed JSON value (`parsed.jumper` in the source). -/
structure ChatMessage where
  role : ChatRole
  text : String
  jumperSuggestion : Option JsonVal

/-- `App` component state: the `useState` hooks of the application root.
`File` objects, object URLs and the opaque `Chat` session handle are modelled
as numeric tokens. -/
structure AppState where
  analysis : Option PcbAnalysis
  imageFile : Option Nat
  imageUrl : Option Nat
  isLoading : Bool
  error : Option String
  hoveredId : Option String
  selectedId : Option String
  boardVoltage : Option ℚ
  chat : Option Nat
  chatHistory : List ChatMessage
  isChatLoading : Bool
  jumperSuggestion : Option JsonVal
  isReporting : Bool

/-- The initial `useState` values of the `App` component. -/
def initialAppState : AppState where
  analysis := none
  imageFile := none
  imageUrl := none
  isLoading := false
  error := none
  hoveredId := none
  selectedId := none
  boardVoltage := none
  chat := none
  chatHistory := []
  isChatLoading := false
  jumperSuggestion := none
  isReporting := false

/-- `App.handleReset` (lines 54-69): clears analysis, image, loading flag,
error, hover, selection, board voltage, chat session handle, transcript and
jumper suggestion.  (`isChatLoading` and `isReporting` are not touched by the
source.) -/
def handleReset (s : AppState) : AppState :=
  { s with
    analysis := none
    imageFile := none
    imageUrl := none
    isLoading := false
    error := none
    hoveredId := none
    selectedId := none
    boardVoltage := none
    chat := none
    chatHistory := []
    jumperSuggestion := none }

/-- `App.handleImageUpload`, synchronous prefix (lines 37-41): everything that
runs before the `await analyzePcbImage(file)` suspension point —
`handleReset()`, then `setImageFile`, `setImageUrl(URL.createObjectURL(file))`
and `setIsLoading(true)`.  `url` is the fresh object URL produced by the
platform. -/
def handleImageUploadStart (s : AppState) (file url : Nat) : AppState :=
  let s1 := handleReset s
  { s1 with imageFile := some file, imageUrl := some url, isLoading := true }

/-- `App.handleImageUpload`, success continuation (lines 44-45 and 49-51):
when an analysis request resolves, the code runs `setAnalysis(result)` and
(in `finally`) `setIsLoading(false)` unconditionally — the source carries no
session tag or generation counter, so the continuation of *any* outstanding
request, current or superseded, is applied to the current state. -/
def handleImageUploadSuccess (s : AppState) (result : PcbAnalysis) : AppState :=
  { s with analysis := some result, isLoading := false }

/-- `App.handleImageUpload`, failure continuation (lines 46-51):
`setError(message)` then `setIsLoading(false)`. -/
def handleImageUploadFailure (s : AppState) (message : String) : AppState :=
  { s with error := some message, isLoading := false }

/-- A concrete analysis result, standing for the reply to a first upload. -/
def analysisA : PcbAnalysis where
  components := []
  defects := []
  summary := "first upload result"
  advice := { quick_actions := [], alternatives := [], next_steps := [], repair_cost := none }

/-- A concrete analysis result, standing for the reply to a second upload. -/
def analysisB : PcbAnalysis where
  components := []
  defects := []
  summary := "second upload result"
  advice := { quick_actions := [], alternatives := [], next_steps := [], repair_cost := none }

/-- `AnalysisViewer.tsx` line 155 / `ResultsPanel.tsx` lines 183-185, the
click handler shared by overlay boxes and list items:

```js
setSelectedId(selectedId === id ? null : id);
```
-/
def toggleSelect (selectedId : Option String) (id : String) : Option String :=
  if selectedId = some id then none else some id

/-- JavaScript truthiness of a `number | null | undefined` value: `null`,
`undefined` and `0` are falsy. -/
def numTruthy (v : Option ℚ) : Bool :=
  match v with
  | none => false
  | some q => decide (q ≠ 0)

/-- `AnalysisViewer.tsx` lines 99-100 (and the identical tests in
`ResultsPanel.tsx`, `InfoPopover`, `pdfService.ts`):

```js
const hasVoltageMismatch = (component) =>
  boardVoltage && component.maxVoltage && boardVoltage > component.maxVoltage;
```

`&&` short-circuits on JavaScript truthiness, so a `boardVoltage` or
`maxVoltage` of `0` (not only `null`) disables the comparison. -/
def hasVoltageMismatch (boardVoltage : Option ℚ) (c : Component) : Bool :=
  numTruthy boardVoltage && numTruthy c.maxVoltage &&
    decide (boardVoltage.getD 0 > c.maxVoltage.getD 0)

/-- Modelled from the claim's words (not from the source), for comparison:
`boardVoltage != null && component.maxVoltage != null &&
boardVoltage > component.maxVoltage`. -/
def specVoltageMismatch (boardVoltage : Option ℚ) (c : Component) : Bool :=
  boardVoltage.isSome && c.maxVoltage.isSome &&
    decide (boardVoltage.getD 0 > c.maxVoltage.getD 0)

/-- A component whose `maxVoltage` is `0`, on which the claimed predicate and
the code disagree. -/
def componentMaxV0 : Component where
  designator := "U1"
  mpn := "LM317"
  bbox := { x := 0, y := 0, w := 0, h := 0 }
  presence := .ok
  condition := .ok
  confidence := 1
  temperature := none
  maxVoltage := some 0
  datasheetUrl := none

/-- Smallest exponent `k ≤ 40` with `den ∣ 10 ^ k`, when one exists (i.e. the
rational has a finite decimal expansion). -/
def decExp (den : ℕ) : Option ℕ :=
  (List.range 41).find? (fun k => decide (10 ^ k % den = 0))

/-- Rendering of a JavaScript number by string interpolation.  JavaScript
prints the shortest decimal that round-trips through the IEEE double; for the
exact decimal values exercised in this development that is the exact decimal
expansion, which this function produces (integers without a point, other
finite decimals with their minimal digits). -/
def ratToJsString (q : ℚ) : String :=
  if q.den = 1 then toString q.num
  else
    match decExp q.den with
    | some k =>
      let n : Int := q.num * (10 ^ k) / (q.den : Int)
      let sign := if q.num < 0 then "-" else ""
      let digits := (toString n.natAbs).data
      let padded := List.replicate (k + 1 - digits.length) '0' ++ digits
      sign ++ String.mk (padded.take (padded.length - k)) ++ "." ++
        String.mk (padded.drop (padded.length - k))
    | none => toString q.num ++ "/" ++ toString q.den

/-- `getStatusText` (duplicated verbatim in `geminiService.ts` lines 224-229,
`ResultsPanel.tsx`, `InfoPopover` and `pdfService.ts`): condition takes
priority over presence. -/
def getStatusText (c : Component) : String :=
  if c.condition = .burnt then "Burnt"
  else if c.condition = .corroded then "Corroded"
  else if c.presence = .missing then "Missing"
  else "OK"

/-- `App.handleSendMessage` line 107:
`analysis?.components.find(c => c.designator === selectedId) || undefined`. -/
def selectedComponentOf (analysis : Option PcbAnalysis) (selectedId : Option String) :
    Option Component :=
  match analysis with
  | none => none
  | some a => a.components.find? (fun c => decide ((some c.designator : Option String) = selectedId))

/-- `App.handleSendMessage` line 108: the transcript entry appended for the
`user` role stores the raw message text, undecorated. -/
def chatUserEntry (message : String) : ChatMessage :=
  { role := .user, text := message, jumperSuggestion := none }

/-- `geminiService.ts`, `sendMessage` (lines 208-222), composed with the
caller's argument `boardVoltage: boardVoltage || undefined` (`App` line 114):

```js
let contextualMessage = message;
if (context.component) {
    contextualMessage = `Context: I have selected component ...`;
}
if (context.boardVoltage) {
    contextualMessage += `\n(Note: The board voltage is set to ...V).`;
}
```

Both guards are JavaScript truthiness tests, so a board voltage of `0` (which
the caller already maps to `undefined`) appends no note. -/
def buildOutboundMessage (message : String) (component : Option Component)
    (boardVoltage : Option ℚ) : String :=
  let m1 :=
    match component with
    | some c =>
      "Context: I have selected component " ++ c.designator ++ " (" ++ c.mpn ++
        "). Its condition is \x27" ++ getStatusText c ++ "\x27.\n\nMy question: " ++ message
    | none => message
  if numTruthy boardVoltage then
    m1 ++ "\n(Note: The board voltage is set to " ++ ratToJsString (boardVoltage.getD 0) ++ "V)."
  else
    m1

/-- Modelled from the claim's words (not from the source), for comparison:
the board-voltage note is appended whenever a board voltage is set
(non-null), including zero. -/
def specOutboundMessage (message : String) (component : Option Component)
    (boardVoltage : Option ℚ) : String :=
  let m1 :=
    match component with
    | some c =>
      "Context: I have selected component " ++ c.designator ++ " (" ++ c.mpn ++
        "). Its condition is \x27" ++ getStatusText c ++ "\x27.\n\nMy question: " ++ message
    | none => message
  match boardVoltage with
  | some v => m1 ++ "\n(Note: The board voltage is set to " ++ ratToJsString v ++ "V)."
  | none => m1

/-- A one-component analysis used to exercise chat-context decoration. -/
def analysisWithU1 : PcbAnalysis where
  components := [componentMaxV0]
  defects := []
  summary := "s"
  advice := { quick_actions := [], alternatives := [], next_steps := [], repair_cost := none }

/-- `types.ts` presence values are the strings "missing" / "ok". -/
def presenceToString (p : Presence) : String :=
  match p with
  | .missing => "missing"
  | .ok => "ok"

/-- `types.ts` condition values are the strings "burnt" / "corroded" / "ok". -/
def conditionToString (c : Condition) : String :=
  match c with
  | .burnt => "burnt"
  | .corroded => "corroded"
  | .ok => "ok"

/-- `App.downloadBOM` (lines 77-87): the cell values of one CSV data row,
before quoting.  `??` is JavaScript nullish coalescing: only `temperature`,
`maxVoltage` and `datasheetUrl` fall back to the literal `"N/A"`; `designator`
and `mpn` are rendered verbatim (an empty `mpn` stays empty). -/
def bomRow (c : Component) : List String :=
  [c.designator,
   c.mpn,
   presenceToString c.presence,
   conditionToString c.condition,
   ratToJsString c.confidence,
   (match c.temperature with | some t => ratToJsString t | none => "N/A"),
   (match c.maxVoltage with | some v => ratToJsString v | none => "N/A"),
   (match c.datasheetUrl with | some u => u | none => "N/A")]

/-- `App.downloadBOM` line 74-75: the header row. -/
def bomHeaderRow : String :=
  String.intercalate ","
    ["Designator", "MPN", "Presence", "Condition", "Confidence",
     "Temperature (C)", "Max Voltage (V)", "Datasheet"]

/-- `App.downloadBOM` line 88: `row.map(v => `"$\x7bv\x7d"`).join(',')`. -/
def bomQuotedRow (c : Component) : String :=
  String.intercalate "," ((bomRow c).map (fun v => "\"" ++ v ++ "\""))

/-- `App.downloadBOM` lines 74-91: the full CSV text, header row then one
quoted row per component, joined with newlines. -/
def downloadBOMCsv (components : List Component) : String :=
  String.intercalate "\n" (bomHeaderRow :: components.map bomQuotedRow)

/-- The spec's CSV scenario component:
`\x7bdesignator:"R17", mpn:"", presence:"ok", condition:"ok", confidence:0.92\x7d`. -/
def componentR17 : Component where
  designator := "R17"
  mpn := ""
  bbox := { x := 0, y := 0, w := 0, h := 0 }
  presence := .ok
  condition := .ok
  confidence := ⟨23, 25, by decide, by decide⟩
  temperature := none
  maxVoltage := none
  datasheetUrl := none

/-- The JavaScript whitespace class `\s` (which is also the character set
removed by `String.prototype.trim`). -/
def isJsSpace (c : Char) : Bool :=
  c == ' ' || c == '\t' || c == '\n' || c == '\x0b' || c == '\x0c' || c == '\r' ||
  c == '\u00A0' || c == '\u1680' ||
  (decide ('\u2000' ≤ c) && decide (c ≤ '\u200A')) ||
  c == '\u2028' || c == '\u2029' || c == '\u202F' || c == '\u205F' ||
  c == '\u3000' || c == '\uFEFF'

/-- The literal opening marker of `JUMPER_JSON_REGEX` (App line 101): three
backticks followed by `json`. -/
def fenceOpen : List Char := ['\x60', '\x60', '\x60', 'j', 's', 'o', 'n']

/-- The closing marker: three backticks. -/
def fenceClose : List Char := ['\x60', '\x60', '\x60']

/-- The tail `[\s\S]*?\x7d)\s*` + closing backticks of `JUMPER_JSON_REGEX`,
entered just after the opening brace.  The group is lazy, so at every
position the regex first tries to finish — the current character must be a
closing brace followed by optional whitespace and the closing fence — and
only if that fails consumes the character into the body.  (`\s*` abuts
disjoint character sets on both sides, so greedy matching without
backtracking is exact.)  Returns the rest of the capture (body plus closing
brace) and the text after the closing fence. -/
def matchFenceTail : List Char → List Char → Option (List Char × List Char)
  | _, [] => none
  | acc, c :: rest =>
    if c = '\x7d' ∧ (rest.dropWhile isJsSpace).take 3 = fenceClose then
      some ((c :: acc).reverse, (rest.dropWhile isJsSpace).drop 3)
    else
      matchFenceTail (c :: acc) rest

/-- One attempt of `JUMPER_JSON_REGEX` anchored at the start of `s`:
the opening marker, optional whitespace, an opening brace, then the lazy
body.  Returns the captured group (`match[1]`, brace to brace) and the text
after the whole match. -/
def tryMatchAt (s : List Char) : Option (List Char × List Char) :=
  if s.take 7 = fenceOpen then
    match (s.drop 7).dropWhile isJsSpace with
    | c :: s2 =>
      if c = '\x7b' then
        match matchFenceTail [] s2 with
        | some (body, rest) => some ('\x7b' :: body, rest)
        | none => none
      else none
    | [] => none
  else none

/-- `JUMPER_JSON_REGEX` (App line 101), leftmost match:
`/\x60\x60\x60json\s*(\x7b[\s\S]*?\x7d)\s*\x60\x60\x60/` tried at each start
position from the left.  Returns (text before the match, captured group,
text after the match); `String.prototype.replace` with this regex yields
exactly the first and third parts concatenated. -/
def findJumperMatch : List Char → Option (List Char × List Char × List Char)
  | [] => none
  | c :: t =>
    match tryMatchAt (c :: t) with
    | some (cap, rest) => some ([], cap, rest)
    | none =>
      match findJumperMatch t with
      | some (pre, cap, rest) => some (c :: pre, cap, rest)
      | none => none

/-- `String.prototype.trim`. -/
def jsTrim (s : String) : String :=
  String.mk (((s.data.dropWhile isJsSpace).reverse.dropWhile isJsSpace).reverse)

/-- `App.handleSendMessage`, reply post-processing (lines 117-137):

```js
let jumper = null;
const match = responseText.match(JUMPER_JSON_REGEX);
if (match && match[1]) {
  try {
    const parsed = JSON.parse(match[1]);
    if (parsed.jumper?.from && parsed.jumper?.to) {
      jumper = parsed.jumper;
      ...
    }
  } catch (e) { ... }
}
const modelMessage = {
  role: "model",
  text: responseText.replace(JUMPER_JSON_REGEX, '').trim(),
  jumperSuggestion: jumper || undefined,
};
```

`jsonParse` is the `JSON.parse` oracle.  The captured group always starts
with a brace, so `match[1]` is never falsy when a match exists.  Note the
`replace(...).trim()` runs unconditionally: the fenced block is stripped from
the displayed text even when its embedded JSON fails to parse. -/
def processChatReply (jsonParse : String → Option JsonVal) (responseText : String) :
    ChatMessage :=
  let matched := findJumperMatch responseText.data
  let jumper : Option JsonVal :=
    match matched with
    | none => none
    | some (_, cap, _) =>
      match jsonParse (String.mk cap) with
      | none => none
      | some parsed =>
        match getKey parsed "jumper" with
        | none => none
        | some j =>
          if optTruthy (getKey j "from") && optTruthy (getKey j "to") then some j
          else none
  let text :=
    match matched with
    | none => jsTrim responseText
    | some (pre, _, post) => jsTrim (String.mk (pre ++ post))
  { role := .model, text := text, jumperSuggestion := jumper }

/-- `ResultsPanel.tsx` line 175 (ExplorerView), line 384-388 (Issues stat) and
`pdfService.ts` lines 357-359: a component has an issue when
`c.presence !== 'ok' || c.condition !== 'ok' || (boardVoltage && c.maxVoltage
&& boardVoltage > c.maxVoltage)`. -/
def componentHasIssue (bv : Option ℚ) (c : Component) : Bool :=
  decide (c.presence ≠ .ok) || decide (c.condition ≠ .ok) || hasVoltageMismatch bv c

/-- `ResultsPanel.tsx` line 176 and `pdfService.ts` lines 360-362: a component
is OK when `c.presence === 'ok' && c.condition === 'ok' && !(boardVoltage &&
c.maxVoltage && boardVoltage > c.maxVoltage)`. -/
def componentIsOk (bv : Option ℚ) (c : Component) : Bool :=
  decide (c.presence = .ok) && decide (c.condition = .ok) && !hasVoltageMismatch bv c

/-- `String.prototype.toLowerCase`, for the ASCII letters that designators and
part numbers use. -/
def jsToLower (s : String) : String :=
  String.mk (s.data.map Char.toLower)

/-- Auxiliary for `String.prototype.includes`: list prefix test. -/
def listStartsWith : List Char → List Char → Bool
  | _, [] => true
  | [], _ :: _ => false
  | c :: cs, p :: ps => c == p && listStartsWith cs ps

/-- Auxiliary for `String.prototype.includes`: contiguous-sublist test. -/
def listContainsSub : List Char → List Char → Bool
  | [], pat => listStartsWith [] pat
  | c :: t, pat => listStartsWith (c :: t) pat || listContainsSub t pat

/-- `String.prototype.includes`. -/
def strIncludes (s pat : String) : Bool :=
  listContainsSub s.data pat.data

/-- `ResultsPanel.tsx` ExplorerView lines 168-172: the search filter.  An
empty search term is falsy, so the component list passes through unfiltered;
otherwise components are kept when the lowercased designator or MPN contains
the lowercased term. -/
def searchFilterComponents (searchTerm : String) (components : List Component) :
    List Component :=
  if searchTerm = "" then components
  else
    let lowercasedSearch := jsToLower searchTerm
    components.filter (fun c =>
      strIncludes (jsToLower c.designator) lowercasedSearch ||
      strIncludes (jsToLower c.mpn) lowercasedSearch)

/-- `ResultsPanel.tsx` line 175: `componentsWithIssues` of the explorer view
(search filter, then issue filter). -/
def explorerComponentsWithIssues (bv : Option ℚ) (searchTerm : String)
    (components : List Component) : List Component :=
  (searchFilterComponents searchTerm components).filter (componentHasIssue bv)

/-- `ResultsPanel.tsx` line 176: `okComponents` of the explorer view. -/
def explorerOkComponents (bv : Option ℚ) (searchTerm : String)
    (components : List Component) : List Component :=
  (searchFilterComponents searchTerm components).filter (componentIsOk bv)

/-- `pdfService.ts` lines 357-359: `componentsWithIssues` of the PDF report
(no search filter). -/
def pdfComponentsWithIssues (bv : Option ℚ) (components : List Component) :
    List Component :=
  components.filter (componentHasIssue bv)

/-- `pdfService.ts` lines 360-362: `okComponents` of the PDF report. -/
def pdfOkComponents (bv : Option ℚ) (components : List Component) : List Component :=
  components.filter (componentIsOk bv)

/-- The spec's jumper example as a parsed JSON value:
`\x7b"from": \x7b"x": 0.25, "y": 0.35\x7d, "to": \x7b"x": 0.28, "y": 0.55\x7d\x7d`. -/
def jumperObjExample : JsonVal :=
  .jobj [("from", .jobj [("x", .jnum ⟨1, 4, by decide, by decide⟩),
                         ("y", .jnum ⟨7, 20, by decide, by decide⟩)]),
         ("to", .jobj [("x", .jnum ⟨7, 25, by decide, by decide⟩),
                       ("y", .jnum ⟨11, 20, by decide, by decide⟩)])]

/-- The embedded JSON text of the spec's jumper example. -/
def jumperBlockText : String :=
  "\x7b\"jumper\":\x7b\"from\":\x7b\"x\":0.25,\"y\":0.35\x7d,\"to\":\x7b\"x\":0.28,\"y\":0.55\x7d\x7d\x7d"

/-- A `JSON.parse` oracle consistent with the spec's jumper example. -/
def jumperParseOracle (s : String) : Option JsonVal :=
  if s = jumperBlockText then some (.jobj [("jumper", jumperObjExample)]) else none

/-- A chat reply carrying the spec's fenced jumper block. -/
def jumperReplyExample : String :=
  "Use a jumper.\n\x60\x60\x60json\n" ++ jumperBlockText ++ "\n\x60\x60\x60"

/-- Claim C1, as stated, fails on the code: the reply
`\x7b"components": null, "defects": []\x7d` parses as JSON and contains both
top-level keys `components` and `defects`, yet `analyze` does not return the
parsed value — it fails with `MalformedResponse`, because the source checks
JavaScript truthiness (`!parsed.components`) rather than key presence, and
`null` is falsy. -/
theorem c1_counterexample :
    (getKey (JsonVal.jobj [("components", .jnull), ("defects", .jarr [])]) "components").isSome = true ∧
    (getKey (JsonVal.jobj [("components", .jnull), ("defects", .jarr [])]) "defects").isSome = true ∧
    analyzeReply (some (JsonVal.jobj [("components", .jnull), ("defects", .jarr [])])) =
      .error .malformedResponse ∧
    analyzeReply (some (JsonVal.jobj [("components", .jnull), ("defects", .jarr [])])) ≠
      .ok (JsonVal.jobj [("components", .jnull), ("defects", .jarr [])]) := by
  refine ⟨rfl, rfl, rfl, ?_⟩
  intro h
  exact Except.noConfusion h

/-- Claim C1 (amended): if the reply parses as JSON and its top-level keys
`components` and `defects` are both present with truthy values, `analyze`
returns exactly the parsed JSON value; if either key is missing or falsy, or
the reply does not parse as JSON at all, `analyze` fails with
`MalformedResponse` and never returns a partial object. -/
theorem c1_analyze_reply_contract :
    (analyzeReply none = .error .malformedResponse) ∧
    (∀ v : JsonVal, optTruthy (getKey v "components") = true →
        optTruthy (getKey v "defects") = true →
        analyzeReply (some v) = .ok v) ∧
    (∀ v : JsonVal, optTruthy (getKey v "components") = false ∨
        optTruthy (getKey v "defects") = false →
        analyzeReply (some v) = .error .malformedResponse) := by
  refine ⟨rfl, ?_, ?_⟩
  · intro v hc hd
    simp [analyzeReply, hc, hd]
  · intro v h
    rcases h with h | h <;> simp [analyzeReply, h]

/-- Witness for `c1_analyze_reply_contract`: a reply with truthy `components`
and `defects` keys is returned verbatim, and a reply missing both keys is
rejected. -/
theorem c1_analyze_reply_contract_witness :
    analyzeReply (some (JsonVal.jobj [("components", .jarr [.jnull]), ("defects", .jarr [])])) =
      .ok (JsonVal.jobj [("components", .jarr [.jnull]), ("defects", .jarr [])]) ∧
    analyzeReply (some (JsonVal.jobj [])) = .error .malformedResponse := by
  constructor
  · exact c1_analyze_reply_contract.2.1
      (JsonVal.jobj [("components", .jarr [.jnull]), ("defects", .jarr [])]) rfl rfl
  · exact c1_analyze_reply_contract.2.2 (JsonVal.jobj []) (Or.inl rfl)

/-- Claim C9: when no API credential is available, `analyzePcbImage` fails
with `ConfigurationError` and the effect trace is empty — no network call is
attempted — for every possible reply. -/
theorem c9_no_credential_no_network :
    ∀ replyParse : Option JsonVal,
      analyzePcbImage none replyParse = ([], .error .configurationError) := by
  intro replyParse
  rfl

/-- Claim C2 names a real bug in the code: `handleImageUpload` sets the
analysis from a resolved request without checking that the request still
belongs to the current session.  Failing interleaving — upload #1 starts,
upload #2 starts (superseding #1), request #2 resolves with `analysisB`, then
the stale request #1 resolves with `analysisA`: the final state's analysis is
`analysisA`, i.e. the superseded request's result has overwritten the newer
session's analysis, contradicting the claim (and spec §9's stale-response
requirement). -/
theorem c2_stale_response_overwrites :
    (handleImageUploadSuccess
        (handleImageUploadSuccess
          (handleImageUploadStart (handleImageUploadStart initialAppState 1 1) 2 2)
          analysisB)
        analysisA).analysis = some analysisA ∧
    analysisA ≠ analysisB := by
  exact ⟨rfl, by decide⟩

/-- Claim C4: starting a new upload from any prior state clears the analysis,
chat transcript, chat session handle, board voltage, selection, hover, jumper
suggestion and error in the same synchronous step, before the new analysis
request begins; the only fields carried into the new session are the fresh
image file, its object URL and the loading flag. -/
theorem c4_upload_clears_previous_session (s : AppState) (file url : Nat) :
    (handleImageUploadStart s file url).analysis = none ∧
    (handleImageUploadStart s file url).chatHistory = [] ∧
    (handleImageUploadStart s file url).chat = none ∧
    (handleImageUploadStart s file url).boardVoltage = none ∧
    (handleImageUploadStart s file url).selectedId = none ∧
    (handleImageUploadStart s file url).hoveredId = none ∧
    (handleImageUploadStart s file url).jumperSuggestion = none ∧
    (handleImageUploadStart s file url).error = none ∧
    (handleImageUploadStart s file url).imageFile = some file ∧
    (handleImageUploadStart s file url).imageUrl = some url ∧
    (handleImageUploadStart s file url).isLoading = true :=
  ⟨rfl, rfl, rfl, rfl, rfl, rfl, rfl, rfl, rfl, rfl, rfl⟩

/-- Claim C6: selecting an already-selected id deselects it (so
select(x); select(x) from a state not already selecting x ends unselected),
and selecting x while a different id y is selected replaces the selection
with x directly. -/
theorem c6_selection_toggle (s : Option String) (x y : String) :
    toggleSelect (some x) x = none ∧
    (s ≠ some x → toggleSelect (toggleSelect s x) x = none) ∧
    (y ≠ x → toggleSelect (some y) x = some x) := by
  refine ⟨by simp [toggleSelect], ?_, ?_⟩
  · intro h
    simp [toggleSelect, h]
  · intro h
    simp [toggleSelect, h]

/-- Witness for `c6_selection_toggle` at a concrete selection state. -/
theorem c6_selection_toggle_witness :
    toggleSelect (some "U1") "U1" = none ∧
    toggleSelect (toggleSelect none "U1") "U1" = none ∧
    toggleSelect (some "R17") "U1" = some "U1" := by
  have h := c6_selection_toggle none "U1" "R17"
  exact ⟨h.1, h.2.1 (by decide), h.2.2 (by decide)⟩

/-- Claim C5, as stated, fails on the code: with `boardVoltage = 5` and a
component whose `maxVoltage` is `0`, the claimed predicate
`boardVoltage != null && maxVoltage != null && boardVoltage > maxVoltage`
classifies the component as mismatched, but the code's truthiness test
(`boardVoltage && maxVoltage && ...`) does not, because `0` is falsy in
JavaScript. -/
theorem c5_counterexample :
    specVoltageMismatch (some 5) componentMaxV0 = true ∧
    hasVoltageMismatch (some 5) componentMaxV0 = false := by
  exact ⟨by decide, by decide⟩

/-- Claim C5 (amended): a component is classified as voltage-mismatched
exactly when the board voltage is set and nonzero, the component's
`maxVoltage` is present and nonzero, and the board voltage exceeds
`maxVoltage`.  In particular, with `boardVoltage = 5` and `maxVoltage = 3.3`
the component is mismatched, and with `boardVoltage = null` no component is
ever mismatched. -/
theorem c5_voltage_mismatch (bv : Option ℚ) (c : Component) :
    (hasVoltageMismatch bv c = true ↔
      ∃ b m : ℚ, bv = some b ∧ c.maxVoltage = some m ∧ b ≠ 0 ∧ m ≠ 0 ∧ b > m) ∧
    hasVoltageMismatch none c = false := by
  constructor
  · cases bv with
    | none => simp [hasVoltageMismatch, numTruthy]
    | some b =>
      cases hmv : c.maxVoltage with
      | none => simp [hasVoltageMismatch, numTruthy, hmv]
      | some m =>
        simp only [hasVoltageMismatch, numTruthy, hmv, Option.getD_some,
          Bool.and_eq_true, decide_eq_true_eq]
        constructor
        · rintro ⟨⟨hb, hm⟩, hgt⟩
          exact ⟨b, m, rfl, rfl, hb, hm, hgt⟩
        · rintro ⟨b', m', hb', hm', hbne, hmne, hgt⟩
          cases Option.some.inj hb'
          cases Option.some.inj hm'
          exact ⟨⟨hbne, hmne⟩, hgt⟩
  · cases c.maxVoltage <;> simp [hasVoltageMismatch, numTruthy]

/-- Claim C7, as stated, fails on the code at a board voltage of `0`: the
voltage is set (non-null), so per the claim the note should be appended to the
outbound message, but `boardVoltage || undefined` and the truthiness guard
`if (context.boardVoltage)` both drop `0`, so the outbound message is the raw
text. -/
theorem c7_counterexample :
    buildOutboundMessage "hi" none (some 0) = "hi" ∧
    specOutboundMessage "hi" none (some 0) ≠ buildOutboundMessage "hi" none (some 0) := by
  exact ⟨by decide, by decide⟩

/-- Claim C7 (amended): the outbound message is the raw text with the
component-context description prepended when a component is selected and the
board-voltage note appended when a *nonzero* board voltage is set, while the
transcript entry stored for the `user` role is always the original
undecorated text. -/
theorem c7_outbound_decoration (message : String) (analysis : Option PcbAnalysis)
    (selectedId : Option String) (bv : Option ℚ) :
    (chatUserEntry message).role = .user ∧
    (chatUserEntry message).text = message ∧
    (selectedComponentOf analysis selectedId = none → numTruthy bv = false →
      buildOutboundMessage message (selectedComponentOf analysis selectedId) bv = message) ∧
    (∀ c : Component, selectedComponentOf analysis selectedId = some c →
      buildOutboundMessage message (selectedComponentOf analysis selectedId) bv =
        (if numTruthy bv then
          ("Context: I have selected component " ++ c.designator ++ " (" ++ c.mpn ++
            "). Its condition is \x27" ++ getStatusText c ++ "\x27.\n\nMy question: " ++ message) ++
          "\n(Note: The board voltage is set to " ++ ratToJsString (bv.getD 0) ++ "V)."
        else
          "Context: I have selected component " ++ c.designator ++ " (" ++ c.mpn ++
            "). Its condition is \x27" ++ getStatusText c ++ "\x27.\n\nMy question: " ++ message)) ∧
    (selectedComponentOf analysis selectedId = none → numTruthy bv = true →
      buildOutboundMessage message (selectedComponentOf analysis selectedId) bv =
        message ++ "\n(Note: The board voltage is set to " ++ ratToJsString (bv.getD 0) ++ "V).") := by
  refine ⟨rfl, rfl, ?_, ?_, ?_⟩
  · intro hsel hbv
    simp [buildOutboundMessage, hsel, hbv]
  · intro c hsel
    by_cases hbv : numTruthy bv = true
    · simp [buildOutboundMessage, hsel, hbv]
    · simp only [Bool.not_eq_true] at hbv
      simp [buildOutboundMessage, hsel, hbv]
  · intro hsel hbv
    simp [buildOutboundMessage, hsel, hbv]

/-- Witness for `c7_outbound_decoration`: with component `U1` selected and a
board voltage of 5, the outbound message carries both decorations while the
transcript keeps the raw question. -/
theorem c7_outbound_decoration_witness :
    buildOutboundMessage "Is it safe?"
        (selectedComponentOf (some analysisWithU1) (some "U1")) (some 5) =
      "Context: I have selected component U1 (LM317). Its condition is \x27OK\x27.\n\nMy question: Is it safe?\n(Note: The board voltage is set to 5V)." ∧
    (chatUserEntry "Is it safe?").text = "Is it safe?" := by
  constructor
  · have h := (c7_outbound_decoration "Is it safe?" (some analysisWithU1)
      (some "U1") (some 5)).2.2.2.1 componentMaxV0 (by decide)
    rw [h]
    decide
  · exact (c7_outbound_decoration "Is it safe?" none none none).2.1

/-- Claim C8, as stated, fails on the code: for the spec's scenario component
(`mpn = ""`), the CSV data row renders the MPN cell as the quoted empty
string, not as a "not available" placeholder — the source applies the `??
'N/A'` fallback only to `temperature`, `maxVoltage` and `datasheetUrl`, never
to `mpn`. -/
theorem c8_counterexample :
    downloadBOMCsv [componentR17] =
      "Designator,MPN,Presence,Condition,Confidence,Temperature (C),Max Voltage (V),Datasheet\n\"R17\",\"\",\"ok\",\"ok\",\"0.92\",\"N/A\",\"N/A\",\"N/A\"" ∧
    (bomRow componentR17).get? 1 = some "" ∧
    ("" : String) ≠ "N/A" := by
  exact ⟨by decide, rfl, by decide⟩

/-- Claim C8 (amended): the CSV export is one header row (Designator, MPN,
Presence, Condition, Confidence, Temperature (C), Max Voltage (V), Datasheet)
plus one row per component with every value quoted; the missing optional
fields `temperature`, `maxVoltage` and `datasheetUrl` render as the literal
placeholder "N/A", while `designator` and `mpn` are rendered verbatim, so an
empty `mpn` yields an empty quoted cell rather than a placeholder. -/
theorem c8_bom_rendering (c : Component) (comps : List Component) :
    (bomRow c).length = 8 ∧
    (bomRow c).get? 0 = some c.designator ∧
    (bomRow c).get? 1 = some c.mpn ∧
    (c.temperature = none → (bomRow c).get? 5 = some "N/A") ∧
    (c.maxVoltage = none → (bomRow c).get? 6 = some "N/A") ∧
    (c.datasheetUrl = none → (bomRow c).get? 7 = some "N/A") ∧
    bomQuotedRow c = String.intercalate "," ((bomRow c).map (fun v => "\"" ++ v ++ "\"")) ∧
    downloadBOMCsv comps = String.intercalate "\n" (bomHeaderRow :: comps.map bomQuotedRow) ∧
    (comps.map bomQuotedRow).length = comps.length := by
  refine ⟨rfl, rfl, rfl, ?_, ?_, ?_, rfl, rfl, by simp⟩
  · intro h
    simp [bomRow, h]
  · intro h
    simp [bomRow, h]
  · intro h
    simp [bomRow, h]

/-- Witness for `c8_bom_rendering` at the spec's scenario component, whose
optional fields are all absent. -/
theorem c8_bom_rendering_witness :
    (bomRow componentR17).get? 1 = some "" ∧
    (bomRow componentR17).get? 5 = some "N/A" ∧
    (bomRow componentR17).get? 6 = some "N/A" ∧
    (bomRow componentR17).get? 7 = some "N/A" := by
  have h := c8_bom_rendering componentR17 [componentR17]
  exact ⟨h.2.2.1, h.2.2.2.1 rfl, h.2.2.2.2.1 rfl, h.2.2.2.2.2.1 rfl⟩

/-- Soundness of the lazy fence tail: a successful match decomposes its input
into the captured body (ending in a closing brace), whitespace, the closing
fence, and the remainder. -/
theorem matchFenceTail_sound (s : List Char) : ∀ acc out rest : List Char,
    matchFenceTail acc s = some (out, rest) →
    ∃ b ws : List Char,
      out = acc.reverse ++ (b ++ ['\x7d']) ∧
      s = (b ++ ['\x7d']) ++ ws ++ fenceClose ++ rest ∧
      ∀ c ∈ ws, isJsSpace c = true := by
  induction s with
  | nil =>
    intro acc out rest h
    simp [matchFenceTail] at h
  | cons c t ih =>
    intro acc out rest h
    rw [matchFenceTail] at h
    split at h
    · rename_i hcond
      obtain ⟨hc, hfence⟩ := hcond
      simp only [Option.some.injEq, Prod.mk.injEq] at h
      obtain ⟨hout, hrest⟩ := h
      refine ⟨[], t.takeWhile isJsSpace, ?_, ?_, ?_⟩
      · rw [← hout, List.reverse_cons, hc]
        simp
      · subst hc
        have hd := List.take_append_drop 3 (t.dropWhile isJsSpace)
        rw [hfence, hrest] at hd
        have ht := List.takeWhile_append_dropWhile isJsSpace t
        simp only [List.nil_append, List.cons_append, List.append_assoc,
          List.singleton_append]
        rw [hd, ht]
      · intro x hx
        exact List.mem_takeWhile_imp hx
    · obtain ⟨b, ws, h1, h2, h3⟩ := ih (c :: acc) out rest h
      refine ⟨c :: b, ws, ?_, ?_, h3⟩
      · rw [h1, List.reverse_cons]
        simp [List.append_assoc]
      · rw [h2]
        simp [List.append_assoc]

/-- Soundness of one anchored attempt of the regex: a successful match
decomposes its input into the opening fence, whitespace, the captured group
(brace to brace), whitespace, the closing fence, and the remainder. -/
theorem tryMatchAt_sound (s cap rest : List Char)
    (h : tryMatchAt s = some (cap, rest)) :
    ∃ ws1 ws2 b : List Char,
      s = fenceOpen ++ ws1 ++ cap ++ ws2 ++ fenceClose ++ rest ∧
      (∀ c ∈ ws1, isJsSpace c = true) ∧ (∀ c ∈ ws2, isJsSpace c = true) ∧
      cap = '\x7b' :: (b ++ ['\x7d']) := by
  rw [tryMatchAt] at h
  split at h
  · rename_i hopen
    obtain ⟨d, hd⟩ : ∃ d, s.drop 7 = d := ⟨_, rfl⟩
    rw [hd] at h
    have hs : s = fenceOpen ++ d := by
      rw [← hopen, ← hd, List.take_append_drop]
    split at h
    · rename_i c s2 hdrop
      split at h
      · rename_i hbrace
        split at h
        · rename_i body rest' htail
          simp only [Option.some.injEq, Prod.mk.injEq] at h
          obtain ⟨hcap, hrest⟩ := h
          obtain ⟨b, ws2, hbody, hs2, hws2⟩ :=
            matchFenceTail_sound s2 [] body rest' htail
          simp only [List.reverse_nil, List.nil_append] at hbody
          refine ⟨d.takeWhile isJsSpace, ws2, b,
            ?_, fun x hx => List.mem_takeWhile_imp hx, hws2, by rw [← hcap, hbody]⟩
          have hdsplit := (List.takeWhile_append_dropWhile isJsSpace d).symm
          conv_lhs => rw [hs, hdsplit, hdrop, hbrace, hs2]
          rw [← hcap, hbody, ← hrest]
          simp [List.append_assoc]
        · simp at h
      · simp at h
    · simp at h
  · simp at h

/-- Soundness of the leftmost regex match: a successful match of
`JUMPER_JSON_REGEX` decomposes the text into the part before the match, the
full matched fence (opening marker, whitespace, capture, whitespace, closing
marker), and the part after it; the capture runs from an opening to a closing
brace. -/
theorem findJumperMatch_sound (s : List Char) : ∀ pre cap post : List Char,
    findJumperMatch s = some (pre, cap, post) →
    ∃ ws1 ws2 b : List Char,
      s = pre ++ (fenceOpen ++ ws1 ++ cap ++ ws2 ++ fenceClose) ++ post ∧
      (∀ c ∈ ws1, isJsSpace c = true) ∧ (∀ c ∈ ws2, isJsSpace c = true) ∧
      cap = '\x7b' :: (b ++ ['\x7d']) := by
  induction s with
  | nil =>
    intro pre cap post h
    simp [findJumperMatch] at h
  | cons c t ih =>
    intro pre cap post h
    rw [findJumperMatch] at h
    split at h
    · rename_i cap' rest' htry
      simp only [Option.some.injEq, Prod.mk.injEq] at h
      obtain ⟨hpre, hcap, hpost⟩ := h
      subst hpre hcap hpost
      obtain ⟨ws1, ws2, b, hdec, hws1, hws2, hshape⟩ :=
        tryMatchAt_sound (c :: t) cap' rest' htry
      refine ⟨ws1, ws2, b, ?_, hws1, hws2, hshape⟩
      rw [hdec]
      simp [List.append_assoc]
    · split at h
      · rename_i pre' cap' rest' hfind
        simp only [Option.some.injEq, Prod.mk.injEq] at h
        obtain ⟨hpre, hcap, hpost⟩ := h
        subst hcap hpost
        obtain ⟨ws1, ws2, b, hdec, hws1, hws2, hshape⟩ := ih pre' cap' rest' hfind
        refine ⟨ws1, ws2, b, ?_, hws1, hws2, hshape⟩
        rw [← hpre, hdec]
        simp [List.append_assoc]
      · simp at h

/-- Claim C3, as stated, fails on the code: for a reply containing a fenced
json block whose embedded JSON is malformed (here `\x7boops\x7d`, on which
`JSON.parse` throws), the claim says the raw text including the unparsed
block is shown as-is, but the code's
`responseText.replace(JUMPER_JSON_REGEX, '').trim()` runs unconditionally, so
the stored model message text has the block stripped (and is trimmed), and is
not the raw reply. -/
theorem c3_counterexample :
    (processChatReply (fun _ => none)
        "fix \x60\x60\x60json \x7boops\x7d \x60\x60\x60 done").text = "fix  done" ∧
    (processChatReply (fun _ => none)
        "fix \x60\x60\x60json \x7boops\x7d \x60\x60\x60 done").jumperSuggestion = none ∧
    ("fix  done" : String) ≠ "fix \x60\x60\x60json \x7boops\x7d \x60\x60\x60 done" := by
  exact ⟨by decide, rfl, by decide⟩

/-- Claim C3 (amended): for every chat reply, if `JUMPER_JSON_REGEX` finds a
fenced json block (the reply decomposes as prefix, fence marker, whitespace,
a brace-delimited capture, whitespace, closing fence, suffix), the stored
model message's text is the reply with the whole fenced block removed and the
result trimmed, and its `jumperSuggestion` is the parsed capture's `jumper`
object when the capture parses as JSON with truthy `from`/`to` points, and is
absent when the capture's JSON is malformed (the block is stripped from the
display text even then); if the reply contains no such block, the suggestion
is absent and the text is the raw reply, trimmed. -/
theorem c3_jumper_extraction (p : String → Option JsonVal) (t : String) :
    (findJumperMatch t.data = none →
      processChatReply p t =
        { role := .model, text := jsTrim t, jumperSuggestion := none }) ∧
    (∀ pre cap post : List Char, findJumperMatch t.data = some (pre, cap, post) →
      (∃ ws1 ws2 b : List Char,
        t.data = pre ++ (fenceOpen ++ ws1 ++ cap ++ ws2 ++ fenceClose) ++ post ∧
        (∀ c ∈ ws1, isJsSpace c = true) ∧ (∀ c ∈ ws2, isJsSpace c = true) ∧
        cap = '\x7b' :: (b ++ ['\x7d'])) ∧
      (processChatReply p t).role = .model ∧
      (processChatReply p t).text = jsTrim (String.mk (pre ++ post)) ∧
      (p (String.mk cap) = none → (processChatReply p t).jumperSuggestion = none) ∧
      (∀ v j : JsonVal, p (String.mk cap) = some v → getKey v "jumper" = some j →
        optTruthy (getKey j "from") = true → optTruthy (getKey j "to") = true →
        (processChatReply p t).jumperSuggestion = some j)) := by
  constructor
  · intro h
    simp [processChatReply, h]
  · intro pre cap post h
    refine ⟨findJumperMatch_sound t.data pre cap post h, ?_, ?_, ?_, ?_⟩
    · simp [processChatReply, h]
    · simp [processChatReply, h]
    · intro hp
      simp [processChatReply, h, hp]
    · intro v j hv hj hfrom hto
      simp [processChatReply, h, hv, hj, hfrom, hto]

/-- Witness for `c3_jumper_extraction` at the spec's example reply: the
jumper object is extracted and the fenced block is stripped from the display
text. -/
theorem c3_jumper_extraction_witness :
    (processChatReply jumperParseOracle jumperReplyExample).jumperSuggestion =
      some jumperObjExample ∧
    (processChatReply jumperParseOracle jumperReplyExample).text = "Use a jumper." := by
  have h := (c3_jumper_extraction jumperParseOracle jumperReplyExample).2
    "Use a jumper.\n".data jumperBlockText.data [] (by decide)
  constructor
  · exact h.2.2.2.2 (.jobj [("jumper", jumperObjExample)]) jumperObjExample
      (by rfl) (by rfl) (by rfl) (by rfl)
  · rw [h.2.2.1]
    decide

/-- The two component filters of `ResultsPanel.tsx` (ExplorerView) and
`pdfService.ts` use complementary predicates. -/
theorem componentIsOk_eq_not_hasIssue (bv : Option ℚ) (c : Component) :
    componentIsOk bv c = !componentHasIssue bv c := by
  simp [componentIsOk, componentHasIssue, ne_eq, decide_not, Bool.not_or, Bool.not_not]

/-- Claim C10: for every analysis component list, search term and board
voltage, the derived `componentsWithIssues` and `okComponents` lists
partition the (search-filtered) component list — each member of the filtered
list belongs to exactly one of the two — both in the explorer view and in the
PDF report. -/
theorem c10_issue_ok_partition (bv : Option ℚ) (searchTerm : String)
    (comps : List Component) (c : Component) :
    (c ∈ searchFilterComponents searchTerm comps →
      (c ∈ explorerComponentsWithIssues bv searchTerm comps ↔
        c ∉ explorerOkComponents bv searchTerm comps)) ∧
    (c ∈ explorerComponentsWithIssues bv searchTerm comps ∨
        c ∈ explorerOkComponents bv searchTerm comps →
      c ∈ searchFilterComponents searchTerm comps) ∧
    (c ∈ comps →
      (c ∈ pdfComponentsWithIssues bv comps ↔ c ∉ pdfOkComponents bv comps)) ∧
    (c ∈ pdfComponentsWithIssues bv comps ∨ c ∈ pdfOkComponents bv comps →
      c ∈ comps) := by
  refine ⟨?_, ?_, ?_, ?_⟩
  · intro hmem
    simp [explorerComponentsWithIssues, explorerOkComponents, List.mem_filter, hmem,
      componentIsOk_eq_not_hasIssue]
  · rintro (h | h)
    · exact (List.mem_filter.mp h).1
    · exact (List.mem_filter.mp h).1
  · intro hmem
    simp [pdfComponentsWithIssues, pdfOkComponents, List.mem_filter, hmem,
      componentIsOk_eq_not_hasIssue]
  · rintro (h | h)
    · exact (List.mem_filter.mp h).1
    · exact (List.mem_filter.mp h).1

/-- Witness for `c10_issue_ok_partition` on a one-component list: the OK
component `R17` lands in `okComponents` and therefore not in
`componentsWithIssues`, in both views. -/
theorem c10_issue_ok_partition_witness :
    (componentR17 ∈ explorerComponentsWithIssues none "" [componentR17] ↔
      componentR17 ∉ explorerOkComponents none "" [componentR17]) ∧
    componentR17 ∈ searchFilterComponents "" [componentR17] ∧
    (componentR17 ∈ pdfComponentsWithIssues none [componentR17] ↔
      componentR17 ∉ pdfOkComponents none [componentR17]) ∧
    componentR17 ∈ [componentR17] := by
  have h := c10_issue_ok_partition none "" [componentR17] componentR17
  exact ⟨h.1 (by decide), h.2.1 (Or.inr (by decide)), h.2.2.1 (by decide),
    h.2.2.2 (Or.inr (by decide))⟩
